import Mathlib

/-!
Verification of the VCP auto-update tool (src/update_vcp.py) against its
natural-language specification.  The Python orchestration code is shallowly
embedded: each externally-effectful git / docker command is represented by
an environment field recording its outcome, and the control flow of the
Python functions is transcribed into pure Lean functions over those
environments.  File IO is modelled as reliable (file contents are the
state); the MD5 digest is abstracted as an arbitrary function parameter.
-/

namespace VCPUpdate

/-- The `UpdateStatus` enumeration of the script (PARTIAL is named
`partialStatus` because its Python spelling is a Lean keyword). -/
inductive UpdateStatus where
| success
| failed
| partialStatus
| skipped
| noChanges
| inProgress
| cancelled
deriving DecidableEq, Repr

/-- The `GitCheckpointType` enumeration of the script. -/
inductive GitCheckpointType where
| beforeUpdate
| afterRemoteSetup
| afterFetch
| afterMerge
| afterPush
| manual
| autoBackup
deriving DecidableEq, Repr

/-- Contiguous sub-list test on characters. -/
def charsContain (needle : List Char) : List Char → Bool
| [] => needle.isEmpty
| c :: rest => needle.isPrefixOf (c :: rest) || charsContain needle rest

/-- Substring test, used to embed Python's `needle in haystack`. -/
def strContains (hay needle : String) : Bool :=
  charsContain needle.toList hay.toList

/-- Python's `s.lower()`, as a character list. -/
def lowerChars (s : String) : List Char := s.toList.map Char.toLower

/-- Outcome environment for one invocation of `merge_upstream_changes`:
the exit status and captured output of the plain `git merge upstream/branch`,
the `auto_merge_conflicts` configuration flag, and the exit statuses of the
two escalation commands (`git merge --strategy=recursive -X theirs` and
`git reset --hard upstream/branch`).  `plainHead` is the commit at HEAD
after a succeeding plain merge, `theirsHead` the merge commit created by a
succeeding theirs-strategy merge. -/
structure MergeEnv where
  autoMerge : Bool
  plainOk : Bool
  plainStdout : String
  plainStderr : String
  plainHead : Nat
  theirsOk : Bool
  theirsHead : Nat
  resetOk : Bool

/-- `"Already up to date" in stdout or "Already up-to-date" in stdout`. -/
def mergeIsUpToDate (env : MergeEnv) : Bool :=
  strContains env.plainStdout "Already up to date" ||
    strContains env.plainStdout "Already up-to-date"

/-- `"conflict" in stderr.lower() or "unrelated histories" in stderr.lower()`. -/
def mergeConflictDetected (env : MergeEnv) : Bool :=
  charsContain "conflict".toList (lowerChars env.plainStderr) ||
    charsContain "unrelated histories".toList (lowerChars env.plainStderr)

/-- Embedding of `merge_upstream_changes` (src/update_vcp.py lines
1626-1676): returns the same result strings as the Python function. -/
def mergeUpstreamChanges (env : MergeEnv) : String :=
  if env.plainOk then
    if mergeIsUpToDate env then "no_changes" else "success"
  else
    if mergeConflictDetected env then
      if !env.autoMerge then "failed"
      else if env.theirsOk then "success"
      else if env.resetOk then "success"
      else "failed"
    else "failed"

/-- The commit at the local branch head after `merge_upstream_changes`,
given the head `head0` before the call and the upstream branch tip
`upstreamTip`.  A failing or aborted merge leaves the head unchanged; a
succeeding `git reset --hard upstream/branch` sets it to `upstreamTip`. -/
def mergeFinalHead (env : MergeEnv) (head0 upstreamTip : Nat) : Nat :=
  if env.plainOk then
    if mergeIsUpToDate env then head0 else env.plainHead
  else
    if mergeConflictDetected env then
      if !env.autoMerge then head0
      else if env.theirsOk then env.theirsHead
      else if env.resetOk then upstreamTip
      else head0
    else head0

/-- Outcome environment for one run of `_perform_git_update`: the results
of each stage's external commands.  `revBefore` .. `revPush` record whether
`git rev-parse HEAD` succeeds at the corresponding checkpoint-creation
attempt (when it fails, `create_git_checkpoint` returns without recording,
lines 1713-1716).  `restoreAutoBackup` records whether the failure handler
`_handle_git_failure` gets far enough to record an AUTO_BACKUP checkpoint
through `restore_git_checkpoint`; it never records any of the five
staged kinds. -/
structure GitUpdateEnv where
  statusOk : Bool
  backupEnabled : Bool
  remotesOk : Bool
  fetchOk : Bool
  mergeEnv : MergeEnv
  pushOk : Bool
  revBefore : Bool
  revRemote : Bool
  revFetch : Bool
  revMerge : Bool
  revPush : Bool
  restoreAutoBackup : Bool

/-- Checkpoints recorded by `_handle_git_failure` (only ever AUTO_BACKUP). -/
def failTrail (env : GitUpdateEnv) : List GitCheckpointType :=
  if env.restoreAutoBackup then [GitCheckpointType.autoBackup] else []

/-- Embedding of `_perform_git_update` (lines 1128-1203): returns the git
stage result together with the list of checkpoints recorded during the run,
in order of creation. -/
def performGitUpdate (env : GitUpdateEnv) : UpdateStatus × List GitCheckpointType :=
  if env.statusOk = false then (UpdateStatus.failed, [])
  else
    let t1 : List GitCheckpointType :=
      if env.backupEnabled && env.revBefore then [GitCheckpointType.beforeUpdate] else []
    if env.remotesOk = false then (UpdateStatus.failed, t1 ++ failTrail env)
    else
      let t2 := t1 ++ (if env.revRemote then [GitCheckpointType.afterRemoteSetup] else [])
      if env.fetchOk = false then (UpdateStatus.failed, t2 ++ failTrail env)
      else
        let t3 := t2 ++ (if env.revFetch then [GitCheckpointType.afterFetch] else [])
        if mergeUpstreamChanges env.mergeEnv = "failed" then
          (UpdateStatus.failed, t3 ++ failTrail env)
        else if mergeUpstreamChanges env.mergeEnv = "no_changes" then
          (UpdateStatus.noChanges, t3)
        else
          let t4 := t3 ++ (if env.revMerge then [GitCheckpointType.afterMerge] else [])
          if env.pushOk = false then (UpdateStatus.failed, t4 ++ failTrail env)
          else (UpdateStatus.success, t4 ++ (if env.revPush then [GitCheckpointType.afterPush] else []))

/-- The files fingerprinted by `_check_docker_config_changed`: the compose
file (whose existence is checked explicitly) and the four optional extra
configuration files, in the fixed order of the `additional_configs` list
(`Dockerfile`, `.env`, `docker-compose.override.yml`, `requirements.txt`).
`projectFound` records whether the project-configuration lookup at the top
of the function succeeds.  File bytes are modelled as `List Nat`. -/
structure ConfigFiles where
  projectFound : Bool
  composeExists : Bool
  composeContent : List Nat
  dockerfileContent : Option (List Nat)
  envFileContent : Option (List Nat)
  overrideContent : Option (List Nat)
  requirementsContent : Option (List Nat)

/-- Bytes contributed by an optional configuration file. -/
def optBytes : Option (List Nat) → List Nat
| none => []
| some l => l

/-- `combined_content`: concatenation of all existing fingerprinted files,
compose file first, then the additional configuration files in order. -/
def combinedContent (f : ConfigFiles) : List Nat :=
  f.composeContent ++ optBytes f.dockerfileContent ++ optBytes f.envFileContent ++
    optBytes f.overrideContent ++ optBytes f.requirementsContent

/-- Embedding of `_check_docker_config_changed` (lines 1295-1372).  The
digest (`hashlib.md5(...).hexdigest()` in the source) is abstracted as the
function parameter `hash`; the cache file holding the previously saved
digest is the `cache` argument, and the returned pair is (reported change
flag, cache contents after the call).  Every early return of the source
leaves the cache untouched. -/
def checkDockerConfigChanged (hash : List Nat → Nat) (f : ConfigFiles)
    (cache : Option Nat) : Bool × Option Nat :=
  if !f.projectFound then (false, cache)
  else if !f.composeExists then (false, cache)
  else
    let content := combinedContent f
    if content = [] then (false, cache)
    else
      let currentHash := hash content
      match cache with
      | some cachedHash =>
          if currentHash ≠ cachedHash then (true, some currentHash)
          else (false, some cachedHash)
      | none => (false, some currentHash)

/-- One service entry of the structured `compose ps --format json` output,
already lowercased as in the source (`container.get('State','').lower()`). -/
structure ContainerInfo where
  state : String
  health : String
deriving DecidableEq, Repr

/-- Outcome of scanning one structured service listing. -/
inductive HealthStep where
| ok
| notYet
| fatal
deriving DecidableEq, Repr

/-- The per-poll container scan of `_detailed_health_check` (lines
2013-2032): `allHealthy` is the `all_healthy` accumulator; a service with
state `exited` returns fatally at once, `restarting` or any other
non-running state clears the accumulator and scanning continues. -/
def healthLoop : List ContainerInfo → Bool → HealthStep
| [], allHealthy => if allHealthy then HealthStep.ok else HealthStep.notYet
| c :: rest, allHealthy =>
  if c.state == "running" && (c.health == "" || c.health == "healthy") then
    healthLoop rest allHealthy
  else if c.state == "restarting" then healthLoop rest false
  else if c.state == "exited" then HealthStep.fatal
  else healthLoop rest false

/-- Embedding of the polling loop of `_detailed_health_check` (lines
1984-2043) in the case where structured per-service output is available at
every poll and no shutdown is signalled: `polls` is the sequence of
structured listings observed at successive poll instants before the
timeout elapses; an exhausted list is the timeout (returns failure). -/
def detailedHealthCheck : List (List ContainerInfo) → Bool
| [] => false
| cs :: rest =>
  match healthLoop cs true with
  | HealthStep.ok => true
  | HealthStep.fatal => false
  | HealthStep.notYet => detailedHealthCheck rest

/-- Outcome environment for `rebuild_and_start_docker` (lines 1860-1909):
per-attempt outcomes of `compose up --build -d` (`upOk`) and of
`verify_docker_health` (`healthOk`), the shutdown flag observed at the top
of each attempt, the configured `max_restart_attempts`, and the
availability check at the head of the function. -/
structure DockerDeployEnv where
  dockerUsable : Bool
  maxAttempts : Nat
  shutdownAt : Nat → Bool
  upOk : Nat → Bool
  healthOk : Nat → Bool

/-- The `for attempt in range(max_attempts)` loop of
`rebuild_and_start_docker`: first argument is the current attempt index,
second the remaining attempts. -/
def rebuildLoop (env : DockerDeployEnv) : Nat → Nat → Bool
| _, 0 => false
| attempt, rem + 1 =>
  if env.shutdownAt attempt then false
  else if env.upOk attempt then
    if env.healthOk attempt then true
    else rebuildLoop env (attempt + 1) rem
  else rebuildLoop env (attempt + 1) rem

/-- Embedding of `rebuild_and_start_docker`. -/
def rebuildAndStartDocker (env : DockerDeployEnv) : Bool :=
  if !env.dockerUsable then false
  else rebuildLoop env 0 env.maxAttempts

/-- Embedding of `_perform_docker_deployment` (lines 1267-1293):
`stop_docker_services` always returns True (line 1858), so the deployment
outcome is exactly the rebuild outcome; the configuration-change check
only influences image cleanup, not the returned value. -/
def performDockerDeployment (env : DockerDeployEnv) : Bool :=
  rebuildAndStartDocker env

/-- The fields of `UpdateResult` that the claims are about. -/
structure UpdateResultM where
  projectName : String
  status : UpdateStatus
  gitStatus : Option UpdateStatus
  dockerStatus : Option UpdateStatus
deriving DecidableEq, Repr

/-- Outcome environment for one call of `update_project` (lines 965-1105):
the early-exit checks, the interactive confirmation, the git stage
environment, the `skip_unchanged_docker` policy, and the docker stage. -/
structure UpdateProjectEnv where
  knownProject : Bool
  pathExists : Bool
  originConfigured : Bool
  interactiveMode : Bool
  userConfirms : Bool
  gitEnv : GitUpdateEnv
  skipUnchangedDocker : Bool
  hasDocker : Bool
  dockerAvailable : Bool
  deployEnv : DockerDeployEnv

/-- Embedding of `update_project`.  Note that when Docker is unavailable
the source sets the result to PARTIAL at line 1058 but then falls through
to line 1085 which overwrites the status with SUCCESS, so the returned
status in that branch is SUCCESS with docker status SKIPPED. -/
def updateProject (name : String) (env : UpdateProjectEnv) : UpdateResultM :=
  if !env.knownProject then ⟨name, UpdateStatus.failed, none, none⟩
  else if !env.pathExists then ⟨name, UpdateStatus.failed, none, none⟩
  else if !env.originConfigured then ⟨name, UpdateStatus.failed, none, none⟩
  else if env.interactiveMode && !env.userConfirms then
    ⟨name, UpdateStatus.cancelled, none, none⟩
  else
    let g := (performGitUpdate env.gitEnv).1
    if g = UpdateStatus.failed then ⟨name, UpdateStatus.failed, some g, none⟩
    else if g = UpdateStatus.noChanges && env.skipUnchangedDocker then
      ⟨name, UpdateStatus.noChanges, some g, none⟩
    else if env.hasDocker then
      if !env.dockerAvailable then
        ⟨name, UpdateStatus.success, some g, some UpdateStatus.skipped⟩
      else if performDockerDeployment env.deployEnv then
        ⟨name, UpdateStatus.success, some g, some UpdateStatus.success⟩
      else ⟨name, UpdateStatus.partialStatus, some g, some UpdateStatus.failed⟩
    else ⟨name, UpdateStatus.success, some g, none⟩

/-- The CANCELLED result created for a not-yet-started project by
`_update_projects_sequential` (lines 2277-2283). -/
def cancelledResult (name : String) : UpdateResultM :=
  ⟨name, UpdateStatus.cancelled, none, none⟩

/-- The loop of `_update_projects_sequential` (lines 2272-2288): `obs i`
is the value of `should_cancel or shutdown_event.is_set()` observed at the
top of iteration `i` (the shared flag is only ever raised, never cleared);
a set flag yields a CANCELLED result and the loop continues. -/
def sequentialLoop (obs : Nat → Bool) (penv : String → UpdateProjectEnv) :
    Nat → List String → List UpdateResultM
| _, [] => []
| i, p :: rest =>
  (if obs i then cancelledResult p else updateProject p (penv p)) ::
    sequentialLoop obs penv (i + 1) rest

/-- Embedding of `_update_projects_sequential`. -/
def updateProjectsSequential (projects : List String) (obs : Nat → Bool)
    (penv : String → UpdateProjectEnv) : List UpdateResultM :=
  sequentialLoop obs penv 0 projects

/-- Outcome environment for one run of `_update_projects_parallel` (lines
2290-2385).  `preChecksOk p` summarizes the early checks of
`_perform_git_update_only` (project known, path exists, origin URL
configured); `shutdownPhase2` is the value of `shutdown_event.is_set()`
observed at line 2333 and, being monotone, at every later check of the
same run (the flag is modelled as constant from that point on; it is
observed unset throughout phase 1, so every git future is collected). -/
structure FleetEnv where
  projects : List (String × Bool)
  preChecksOk : String → Bool
  gitEnv : String → GitUpdateEnv
  dockerAvailable : Bool
  parallelDocker : Bool
  skipUnchanged : Bool
  deployOk : String → Bool
  shutdownPhase2 : Bool

/-- Embedding of `_perform_git_update_only` (lines 2387-2452): the git
stage result mapped onto an `UpdateResult`. -/
def gitOnlyResult (env : FleetEnv) (p : String) : UpdateResultM :=
  if !env.preChecksOk p then ⟨p, UpdateStatus.failed, none, none⟩
  else
    let g := (performGitUpdate (env.gitEnv p)).1
    if g = UpdateStatus.failed then ⟨p, UpdateStatus.failed, some g, none⟩
    else if g = UpdateStatus.noChanges then ⟨p, UpdateStatus.noChanges, some g, none⟩
    else ⟨p, UpdateStatus.success, some g, none⟩

/-- Embedding of `_perform_docker_update_only` (lines 2454-2492): copies
the git result and downgrades the status to PARTIAL when the deployment
fails, keeping the git status otherwise. -/
def performDockerUpdateOnly (env : FleetEnv) (p : String) (g : UpdateResultM) :
    UpdateResultM :=
  if env.deployOk p then
    { g with dockerStatus := some UpdateStatus.success }
  else
    { g with status := UpdateStatus.partialStatus,
             dockerStatus := some UpdateStatus.failed }

/-- Embedding of `_update_projects_parallel` (lines 2290-2385).  Phase 1
collects a git result for every project; phase 2 runs only when there are
docker projects, Docker is available and the shutdown flag is unset (line
2333), and appends results only for the docker projects it touches; the
final loop (lines 2376-2383) appends the git results of the non-docker
projects only. -/
def updateProjectsParallel (env : FleetEnv) : List UpdateResultM :=
  let dockerProjects := env.projects.filter (fun pr => pr.2)
  let phase2 : List UpdateResultM :=
    if !dockerProjects.isEmpty && env.dockerAvailable && !env.shutdownPhase2 then
      if env.parallelDocker then
        (dockerProjects.filter (fun pr =>
            (gitOnlyResult env pr.1).status = UpdateStatus.success ∨
              (gitOnlyResult env pr.1).status = UpdateStatus.noChanges)).map
          (fun pr => performDockerUpdateOnly env pr.1 (gitOnlyResult env pr.1))
      else
        dockerProjects.map (fun pr =>
          let g := gitOnlyResult env pr.1
          if g.status = UpdateStatus.success ∨ g.status = UpdateStatus.noChanges then
            if g.status = UpdateStatus.noChanges && env.skipUnchanged then g
            else performDockerUpdateOnly env pr.1 g
          else g)
    else []
  phase2 ++ (env.projects.filter (fun pr => !pr.2)).map (fun pr => gitOnlyResult env pr.1)

/-- The success test of `update_all_projects` (lines 2214-2221): the run
counts as successful when the recomputed statistics contain no FAILED and
no CANCELLED entry. -/
def updateAllProjectsSuccess (rs : List UpdateResultM) : Bool :=
  rs.countP (fun r => r.status == UpdateStatus.failed) == 0 &&
    rs.countP (fun r => r.status == UpdateStatus.cancelled) == 0

/-- The process exit code computed by `main` for a fleet update (lines
2797-2803 with 2859): 0 when `update_all_projects` returned True. -/
def mainExitCodeFleet (rs : List UpdateResultM) : Nat :=
  if updateAllProjectsSuccess rs then 0 else 1

/-- The process exit code computed by `main` for a single-project update
(lines 2801-2803): 0 when the status is neither FAILED nor CANCELLED. -/
def mainExitCodeSingle (r : UpdateResultM) : Nat :=
  if r.status == UpdateStatus.failed || r.status == UpdateStatus.cancelled then 1 else 0

/-! Concrete environments used to instantiate the theorems below. -/

/-- A plain merge that succeeds and brings in new commits. -/
def mergeEnvPlainOk : MergeEnv :=
  ⟨true, true, "Updating 1111111..2222222 Fast-forward", "", 2, false, 0, false⟩

/-- A plain merge reporting that the branch is already up to date. -/
def mergeEnvUpToDate : MergeEnv :=
  ⟨true, true, "Already up to date.", "", 1, false, 0, false⟩

/-- A conflicted merge with auto-resolution on, resolved by the succeeding
theirs-strategy re-merge, which creates merge commit 5. -/
def mergeEnvConflict : MergeEnv :=
  ⟨true, false, "", "CONFLICT (content): Merge conflict in plugin.js", 0, true, 5, true⟩

/-- A merge failing on unrelated histories, with the theirs-strategy
re-merge also failing, resolved by the hard reset to the upstream tip. -/
def mergeEnvUnrelated : MergeEnv :=
  ⟨true, false, "", "fatal: refusing to merge unrelated histories", 0, false, 0, true⟩

/-- A fully successful git run: every stage and every commit lookup works. -/
def gitEnvAllOk : GitUpdateEnv :=
  ⟨true, true, true, true, mergeEnvPlainOk, true, true, true, true, true, true, false⟩

/-- A successful git run in which upstream brought nothing new. -/
def gitEnvUpToDate : GitUpdateEnv :=
  ⟨true, true, true, true, mergeEnvUpToDate, true, true, true, true, true, true, false⟩

/-- A run on a pre-existing repository whose HEAD is unborn (a manually
initialised repository with no commits and a clean tree): `git rev-parse
HEAD` fails at the before-update, after-remote-setup and after-fetch
checkpoint attempts, the merge fast-forwards into the unborn branch
(creating HEAD), and rev-parse succeeds from the after-merge attempt on. -/
def gitEnvUnbornHead : GitUpdateEnv :=
  ⟨true, true, true, true, mergeEnvPlainOk, true, false, false, false, true, true, false⟩

/-- A deployment whose compose up succeeds but whose health check fails on
the single configured attempt. -/
def deployEnvFail : DockerDeployEnv :=
  ⟨true, 1, fun _ => false, fun _ => true, fun _ => false⟩

/-- A deployment that succeeds at the first attempt. -/
def deployEnvOk : DockerDeployEnv :=
  ⟨true, 3, fun _ => false, fun _ => true, fun _ => true⟩

/-- A non-docker project whose update succeeds. -/
def projEnvNoDocker : UpdateProjectEnv :=
  ⟨true, true, true, false, true, gitEnvAllOk, true, false, true, deployEnvOk⟩

/-- A docker project whose git stage succeeds and whose deployment fails. -/
def projEnvDeployFail : UpdateProjectEnv :=
  ⟨true, true, true, false, true, gitEnvAllOk, true, true, true, deployEnvFail⟩

/-- Parallel fleet run with a single docker project whose git stage
succeeds, with the cancellation signal observed set at the phase-2 gate. -/
def fleetEnvCancelled : FleetEnv :=
  ⟨[("VCPToolBox", true)], fun _ => true, fun _ => gitEnvAllOk,
   true, false, true, fun _ => true, true⟩

/-- Parallel fleet run with a single docker project whose git stage
succeeds, with Docker unavailable at the phase-2 gate. -/
def fleetEnvNoDocker : FleetEnv :=
  ⟨[("VCPToolBox", true)], fun _ => true, fun _ => gitEnvAllOk,
   false, false, true, fun _ => true, false⟩

/-- Parallel fleet run with parallel docker deployment enabled and a
single docker project whose git stage fails its early checks. -/
def fleetEnvGitFailed : FleetEnv :=
  ⟨[("VCPToolBox", true)], fun _ => false, fun _ => gitEnvAllOk,
   true, true, true, fun _ => true, false⟩

/-- Default element for `List.getD` on result lists. -/
def dummyResult : UpdateResultM := ⟨"", UpdateStatus.failed, none, none⟩

/-- Project list for the sequential-run witness. -/
def seqProjectsW : List String := ["VCPChat", "VCPToolBox"]

/-- Cancellation observations for the sequential-run witness: the signal
is raised after the first project has started. -/
def seqObsW : Nat → Bool := fun n => decide (1 ≤ n)

/-- Per-project environments for the sequential-run witness. -/
def seqPenvW : String → UpdateProjectEnv := fun _ => projEnvNoDocker

/-! Helper lemmas. -/

/-- `merge_upstream_changes` only ever returns one of its three result
strings. -/
lemma mergeResult_cases (env : MergeEnv) :
    mergeUpstreamChanges env = "no_changes" ∨ mergeUpstreamChanges env = "success" ∨
      mergeUpstreamChanges env = "failed" := by
  unfold mergeUpstreamChanges
  split_ifs <;> simp

set_option maxHeartbeats 2000000 in
/-- Every value returned by `update_project` carries a terminal status. -/
lemma updateProject_terminal (name : String) (env : UpdateProjectEnv) :
    (updateProject name env).status ≠ UpdateStatus.inProgress := by
  unfold updateProject
  generalize (performGitUpdate env.gitEnv).1 = g
  cases g <;> split_ifs <;> simp_all <;> (try split_ifs) <;> simp_all

/-- The sequential loop produces one result per project. -/
lemma sequentialLoop_length (obs : Nat → Bool) (penv : String → UpdateProjectEnv) :
    ∀ (l : List String) (k : Nat), (sequentialLoop obs penv k l).length = l.length := by
  intro l
  induction l with
  | nil => intro k; rfl
  | cons p rest ih => intro k; simp [sequentialLoop, ih]

/-- Elementwise description of the sequential loop. -/
lemma sequentialLoop_getD (obs : Nat → Bool) (penv : String → UpdateProjectEnv) :
    ∀ (l : List String) (k i : Nat), i < l.length →
      (sequentialLoop obs penv k l).getD i dummyResult =
        (if obs (k + i) then cancelledResult (l.getD i "")
         else updateProject (l.getD i "") (penv (l.getD i ""))) := by
  intro l
  induction l with
  | nil => intro k i h; simp at h
  | cons p rest ih =>
      intro k i h
      cases i with
      | zero => simp [sequentialLoop]
      | succ j =>
          have hj : j < rest.length := by simpa using h
          have := ih (k + 1) j hj
          simpa [sequentialLoop, Nat.add_assoc, Nat.add_comm, Nat.add_left_comm] using this

/-- A service listing containing an exited service scans as fatal. -/
lemma healthLoop_fatal_of_exited :
    ∀ (cs : List ContainerInfo) (c : ContainerInfo), c ∈ cs → c.state = "exited" →
      ∀ (b : Bool), healthLoop cs b = HealthStep.fatal := by
  intro cs
  induction cs with
  | nil => intro c hc; simp at hc
  | cons d rest ih =>
      intro c hc hs b
      rcases List.mem_cons.mp hc with h | h
      · subst h
        unfold healthLoop
        rw [hs]
        simp
      · unfold healthLoop
        split_ifs <;> first | rfl | exact ih c h hs _

/-- Once the accumulator is cleared the scan can no longer succeed. -/
lemma healthLoop_false_ne_ok :
    ∀ (cs : List ContainerInfo), healthLoop cs false ≠ HealthStep.ok := by
  intro cs
  induction cs with
  | nil => simp [healthLoop]
  | cons d rest ih =>
      unfold healthLoop
      split_ifs <;> first | exact ih | simp

/-- A service listing containing a restarting service never scans as
healthy. -/
lemma healthLoop_ne_ok_of_restarting :
    ∀ (cs : List ContainerInfo) (c : ContainerInfo), c ∈ cs → c.state = "restarting" →
      ∀ (b : Bool), healthLoop cs b ≠ HealthStep.ok := by
  intro cs
  induction cs with
  | nil => intro c hc; simp at hc
  | cons d rest ih =>
      intro c hc hs b
      rcases List.mem_cons.mp hc with h | h
      · subst h
        unfold healthLoop
        rw [hs]
        simp
        exact healthLoop_false_ne_ok rest
      · unfold healthLoop
        split_ifs <;> first | exact ih c h hs _ | simp

/-! Claim C1. -/

/-- Claim C1, counterexample: in a run on a repository whose HEAD is
unborn until the merge fast-forwards into it (`git rev-parse HEAD` fails
at the first three checkpoint attempts and succeeds afterwards), the run
records an after-merge checkpoint although no after-fetch checkpoint was
created in the same run — even though the fetch stage itself succeeded.
This refutes the clause that an after-merge checkpoint exists only if an
after-fetch checkpoint was created first in the same run. -/
theorem c1_counterexample :
    gitEnvUnbornHead.fetchOk = true ∧
    GitCheckpointType.afterMerge ∈ (performGitUpdate gitEnvUnbornHead).2 ∧
    GitCheckpointType.afterFetch ∉ (performGitUpdate gitEnvUnbornHead).2 ∧
    (performGitUpdate gitEnvUnbornHead).1 = UpdateStatus.success := by
  have ht : performGitUpdate gitEnvUnbornHead =
      (UpdateStatus.success, [GitCheckpointType.afterMerge, GitCheckpointType.afterPush]) := by
    decide
  refine ⟨rfl, ?_, ?_, ?_⟩
  · rw [ht]
    simp
  · rw [ht]
    simp
  · rw [ht]

set_option maxHeartbeats 1000000 in
/-- Claim C1, amended: a later-kind checkpoint is recorded only if the
stage it names succeeded in that same run (after-remote-setup only after
remote setup succeeded, after-fetch only after the fetch succeeded,
after-merge only after the merge returned success, after-push only after
the push succeeded); and provided the current-commit lookup succeeds at
the checkpoint attempts involved, the checkpoint chain is monotonic:
after-push implies after-merge, after-merge implies after-fetch, and
after-fetch implies after-remote-setup, all within the same run. -/
theorem c1_checkpoints_stage_gated (env : GitUpdateEnv) :
    (GitCheckpointType.afterRemoteSetup ∈ (performGitUpdate env).2 → env.remotesOk = true) ∧
    (GitCheckpointType.afterFetch ∈ (performGitUpdate env).2 → env.fetchOk = true) ∧
    (GitCheckpointType.afterMerge ∈ (performGitUpdate env).2 →
      mergeUpstreamChanges env.mergeEnv = "success") ∧
    (GitCheckpointType.afterPush ∈ (performGitUpdate env).2 → env.pushOk = true) ∧
    (env.revRemote = true → GitCheckpointType.afterFetch ∈ (performGitUpdate env).2 →
      GitCheckpointType.afterRemoteSetup ∈ (performGitUpdate env).2) ∧
    (env.revFetch = true → GitCheckpointType.afterMerge ∈ (performGitUpdate env).2 →
      GitCheckpointType.afterFetch ∈ (performGitUpdate env).2) ∧
    (env.revMerge = true → GitCheckpointType.afterPush ∈ (performGitUpdate env).2 →
      GitCheckpointType.afterMerge ∈ (performGitUpdate env).2) := by
  rcases mergeResult_cases env.mergeEnv with hm | hm | hm <;>
    unfold performGitUpdate failTrail <;>
    split_ifs <;>
    simp_all [List.mem_append]

/-- Claim C1, witness for the amended theorem at the all-successful run. -/
theorem c1_checkpoints_stage_gated_witness :
    GitCheckpointType.afterFetch ∈ (performGitUpdate gitEnvAllOk).2 := by
  have ht : performGitUpdate gitEnvAllOk =
      (UpdateStatus.success,
        [GitCheckpointType.beforeUpdate, GitCheckpointType.afterRemoteSetup,
         GitCheckpointType.afterFetch, GitCheckpointType.afterMerge,
         GitCheckpointType.afterPush]) := by
    decide
  exact (c1_checkpoints_stage_gated gitEnvAllOk).2.2.2.2.2.1 rfl (by rw [ht]; simp)

/-! Claim C2. -/

/-- Claim C2, counterexample: a conflicted merge with auto-resolution
enabled that the theirs-strategy re-merge resolves.  The function returns
success, but the final head is the freshly created merge commit (5), not
the upstream tip (3): the local divergent commits are kept in history, not
discarded. -/
theorem c2_counterexample :
    mergeEnvConflict.plainOk = false ∧
    mergeConflictDetected mergeEnvConflict = true ∧
    mergeEnvConflict.autoMerge = true ∧
    mergeUpstreamChanges mergeEnvConflict = "success" ∧
    mergeFinalHead mergeEnvConflict 7 3 ≠ 3 := by
  decide

/-- Claim C2, amended: when the plain merge fails with a conflict or
unrelated-histories error, auto-resolution is enabled and the
theirs-strategy re-merge also fails, then a success result implies that
the final local branch head equals the upstream branch tip (the hard
reset resolved it); when the theirs-strategy merge succeeds, the head is
the merge commit it created and local-only commits are retained. -/
theorem c2_upstream_wins_only_on_reset (env : MergeEnv) (h0 tip : Nat)
    (hp : env.plainOk = false) (hc : mergeConflictDetected env = true)
    (ha : env.autoMerge = true) (ht : env.theirsOk = false)
    (hs : mergeUpstreamChanges env = "success") :
    mergeFinalHead env h0 tip = tip := by
  unfold mergeUpstreamChanges at hs
  unfold mergeFinalHead
  rw [hp, hc] at hs ⊢
  simp only [ha, ht] at hs ⊢
  cases hr : env.resetOk with
  | true => simp [hr]
  | false => rw [hr] at hs; simp at hs

/-- Claim C2, witness for the amended theorem: unrelated histories, the
theirs-strategy merge fails, the hard reset succeeds; the final head is
the upstream tip 3. -/
theorem c2_upstream_wins_only_on_reset_witness :
    mergeFinalHead mergeEnvUnrelated 7 3 = 3 :=
  c2_upstream_wins_only_on_reset mergeEnvUnrelated 7 3 rfl (by decide) rfl rfl (by decide)

/-! Claim C9. -/

/-- Claim C9: when the plain merge succeeds and reports already-up-to-date,
the merge stage returns the string no_changes, `_perform_git_update`
returns NO_CHANGES, and neither an after-merge nor an after-push
checkpoint is recorded in that run. -/
theorem c9_no_changes_no_late_checkpoints (env : GitUpdateEnv)
    (h1 : env.statusOk = true) (h2 : env.remotesOk = true) (h3 : env.fetchOk = true)
    (h4 : env.mergeEnv.plainOk = true) (h5 : mergeIsUpToDate env.mergeEnv = true) :
    mergeUpstreamChanges env.mergeEnv = "no_changes" ∧
    (performGitUpdate env).1 = UpdateStatus.noChanges ∧
    GitCheckpointType.afterMerge ∉ (performGitUpdate env).2 ∧
    GitCheckpointType.afterPush ∉ (performGitUpdate env).2 := by
  have hm : mergeUpstreamChanges env.mergeEnv = "no_changes" := by
    unfold mergeUpstreamChanges
    rw [h4, h5]
    simp
  have hne1 : ("no_changes" : String) ≠ "failed" := by decide
  refine ⟨hm, ?_, ?_, ?_⟩ <;>
    unfold performGitUpdate <;>
    rw [h1, h2, h3] <;>
    simp [hm, hne1]

/-- Claim C9, witness at an up-to-date run with all stages succeeding. -/
theorem c9_no_changes_no_late_checkpoints_witness :
    (performGitUpdate gitEnvUpToDate).1 = UpdateStatus.noChanges ∧
    GitCheckpointType.afterPush ∉ (performGitUpdate gitEnvUpToDate).2 := by
  have h := c9_no_changes_no_late_checkpoints gitEnvUpToDate rfl rfl rfl rfl (by decide)
  exact ⟨h.2.1, h.2.2.2⟩

/-! Claim C3. -/

/-- Claim C3, counterexample: in a parallel fleet run whose single docker
project finishes its git stage successfully, raising the cancellation
signal before the phase-2 gate (line 2333) makes the whole phase-2 block
skip, and the project — whose docker stage had not yet started — receives
no result at all: it is neither marked cancelled nor recorded with any
terminal status (the final loop only appends non-docker projects). -/
theorem c3_counterexample :
    fleetEnvCancelled.shutdownPhase2 = true ∧
    (gitOnlyResult fleetEnvCancelled "VCPToolBox").status = UpdateStatus.success ∧
    updateProjectsParallel fleetEnvCancelled = [] := by
  refine ⟨rfl, by decide, by decide⟩

/-- Claim C3, amended: in a sequential fleet run, a project at whose turn
the cancellation flag is observed set ends with terminal status cancelled
and nothing else, while a project at whose turn the flag is observed unset
runs `update_project` to completion and is recorded with its (always
terminal) result. -/
theorem c3_sequential_cancellation (projects : List String) (obs : Nat → Bool)
    (penv : String → UpdateProjectEnv) :
    (updateProjectsSequential projects obs penv).length = projects.length ∧
    ∀ i, i < projects.length →
      (obs i = true →
        (updateProjectsSequential projects obs penv).getD i dummyResult =
          cancelledResult (projects.getD i "")) ∧
      (obs i = false →
        (updateProjectsSequential projects obs penv).getD i dummyResult =
          updateProject (projects.getD i "") (penv (projects.getD i ""))) ∧
      ((updateProjectsSequential projects obs penv).getD i dummyResult).status ≠
        UpdateStatus.inProgress := by
  constructor
  · exact sequentialLoop_length obs penv projects 0
  · intro i hi
    have hg := sequentialLoop_getD obs penv projects 0 i hi
    rw [Nat.zero_add] at hg
    refine ⟨?_, ?_, ?_⟩
    · intro ho
      unfold updateProjectsSequential
      rw [hg, ho]
      simp
    · intro ho
      unfold updateProjectsSequential
      rw [hg, ho]
      simp
    · unfold updateProjectsSequential
      rw [hg]
      by_cases ho : obs i = true
      · simp [ho, cancelledResult]
      · simp only [Bool.not_eq_true] at ho
        rw [ho]
        simp only [Bool.false_eq_true, if_false]
        exact updateProject_terminal _ _

/-- Claim C3, witness for the amended theorem: two projects, the flag
raised after the first one started; the second is recorded cancelled. -/
theorem c3_sequential_cancellation_witness :
    (updateProjectsSequential seqProjectsW seqObsW seqPenvW).getD 1 dummyResult =
      cancelledResult (seqProjectsW.getD 1 "") ∧
    ((updateProjectsSequential seqProjectsW seqObsW seqPenvW).getD 0 dummyResult).status ≠
      UpdateStatus.inProgress := by
  refine ⟨((c3_sequential_cancellation seqProjectsW seqObsW seqPenvW).2 1 (by decide)).1 (by decide),
    ((c3_sequential_cancellation seqProjectsW seqObsW seqPenvW).2 0 (by decide)).2.2⟩

/-! Claim C4. -/

/-- Claim C4: the fingerprint check never reports a change on the first
observation (no cached digest: the digest is saved and false returned);
with byte-for-byte identical files and the cached digest of exactly those
files it reports no change; and a subsequent run over changed files whose
combined digest differs from the cached one reports a change.  The MD5
digest of the source is abstracted as the parameter `hash`, so the
single-byte-change clause is stated through its digest inequality. -/
theorem c4_fingerprint (hash : List Nat → Nat) (f g : ConfigFiles) :
    (checkDockerConfigChanged hash f none).1 = false ∧
    (checkDockerConfigChanged hash f (some (hash (combinedContent f)))).1 = false ∧
    (g.projectFound = true → g.composeExists = true → combinedContent g ≠ [] →
      hash (combinedContent g) ≠ hash (combinedContent f) →
      (checkDockerConfigChanged hash g (some (hash (combinedContent f)))).1 = true) := by
  unfold checkDockerConfigChanged
  dsimp only
  refine ⟨?_, ?_, ?_⟩
  · split_ifs <;> simp
  · split_ifs <;> simp_all
  · intro h1 h2 h3 h4
    rw [h1, h2]
    simp [h3, h4]

/-- Claim C4, witness: with the running-sum digest, cached observation of
compose bytes [1, 2] and a one-byte change to [1, 3], the three clauses
hold. -/
theorem c4_fingerprint_witness :
    (checkDockerConfigChanged List.sum ⟨true, true, [1, 2], none, none, none, none⟩
      (some (List.sum [1, 2]))).1 = false ∧
    (checkDockerConfigChanged List.sum ⟨true, true, [1, 3], none, none, none, none⟩
      (some (List.sum [1, 2]))).1 = true := by
  have h := c4_fingerprint List.sum ⟨true, true, [1, 2], none, none, none, none⟩
    ⟨true, true, [1, 3], none, none, none, none⟩
  exact ⟨h.2.1, h.2.2 rfl rfl (by decide) (by decide)⟩

/-! Claim C5. -/

/-- Claim C5: with structured per-service output available, the detailed
health check returns failure as soon as any polled listing contains a
service with state exited — regardless of any further observations, i.e.
without further polling — and it never returns success while a restarting
service is present: if every observation up to the timeout contains a
restarting service, the check fails. -/
theorem c5_detailed_health_check :
    (∀ (cs : List ContainerInfo) (rest : List (List ContainerInfo)) (c : ContainerInfo),
      c ∈ cs → c.state = "exited" → detailedHealthCheck (cs :: rest) = false) ∧
    (∀ polls : List (List ContainerInfo),
      (∀ cs ∈ polls, ∃ c ∈ cs, c.state = "restarting") →
        detailedHealthCheck polls = false) := by
  constructor
  · intro cs rest c hc hs
    unfold detailedHealthCheck
    rw [healthLoop_fatal_of_exited cs c hc hs true]
  · intro polls
    induction polls with
    | nil => intro _; rfl
    | cons cs rest ih =>
        intro h
        obtain ⟨c, hc, hs⟩ := h cs (by simp)
        have hne := healthLoop_ne_ok_of_restarting cs c hc hs true
        cases hstep : healthLoop cs true with
        | ok => exact absurd hstep hne
        | fatal =>
            unfold detailedHealthCheck
            rw [hstep]
        | notYet =>
            unfold detailedHealthCheck
            rw [hstep]
            exact ih (fun cs' h' => h cs' (List.mem_cons_of_mem _ h'))

/-- Claim C5, witness: an exited service fails at once even with later
healthy observations pending; an always-restarting service runs the check
into the timeout. -/
theorem c5_detailed_health_check_witness :
    detailedHealthCheck [[⟨"exited", ""⟩], [⟨"running", "healthy"⟩]] = false ∧
    detailedHealthCheck [[⟨"restarting", ""⟩], [⟨"restarting", ""⟩]] = false := by
  constructor
  · exact c5_detailed_health_check.1 [⟨"exited", ""⟩] [[⟨"running", "healthy"⟩]]
      ⟨"exited", ""⟩ (by simp) rfl
  · refine c5_detailed_health_check.2 _ ?_
    intro cs hcs
    rcases List.mem_cons.mp hcs with h | h
    · subst h
      exact ⟨⟨"restarting", ""⟩, by simp, rfl⟩
    · rcases List.mem_cons.mp h with h2 | h2
      · subst h2
        exact ⟨⟨"restarting", ""⟩, by simp, rfl⟩
      · simp at h2

/-! Claim C6. -/

/-- Claim C6, evaluation at the failing input: a parallel fleet run with
one docker-enabled project whose git stage succeeds, but with Docker
unavailable at the phase-2 gate, produces an empty results list — the
project has zero results instead of exactly one terminal result. -/
theorem c6_parallel_drops_result :
    fleetEnvNoDocker.projects = [("VCPToolBox", true)] ∧
    (gitOnlyResult fleetEnvNoDocker "VCPToolBox").status = UpdateStatus.success ∧
    updateProjectsParallel fleetEnvNoDocker = [] := by
  refine ⟨rfl, by decide, by decide⟩

/-! Claim C7. -/

/-- Claim C7: when a docker-enabled project's git stage succeeds and the
deployment fails (the rebuild loop returns false after its attempts are
exhausted or its health checks fail), the run ends PARTIAL and is never
reported as full success — both in `update_project` and in the fleet's
`_perform_docker_update_only`. -/
theorem c7_deploy_failure_status :
    (∀ (name : String) (env : UpdateProjectEnv),
      env.knownProject = true → env.pathExists = true → env.originConfigured = true →
      env.interactiveMode = false →
      (performGitUpdate env.gitEnv).1 = UpdateStatus.success →
      env.hasDocker = true → env.dockerAvailable = true →
      performDockerDeployment env.deployEnv = false →
      (updateProject name env).status = UpdateStatus.partialStatus ∧
        (updateProject name env).status ≠ UpdateStatus.success) ∧
    (∀ (env : FleetEnv) (p : String) (g : UpdateResultM),
      env.deployOk p = false →
      (performDockerUpdateOnly env p g).status = UpdateStatus.partialStatus ∧
        (performDockerUpdateOnly env p g).status ≠ UpdateStatus.success) := by
  constructor
  · intro name env h1 h2 h3 h4 hg h5 h6 h7
    unfold updateProject
    rw [h1, h2, h3, h4, hg, h5, h6, h7]
    simp
  · intro env p g h
    unfold performDockerUpdateOnly
    rw [h]
    simp

/-- Claim C7, witness: a concrete project with a successful git stage and
a deployment whose single attempt fails its health check ends PARTIAL. -/
theorem c7_deploy_failure_status_witness :
    (updateProject "VCPToolBox" projEnvDeployFail).status = UpdateStatus.partialStatus :=
  (c7_deploy_failure_status.1 "VCPToolBox" projEnvDeployFail rfl rfl rfl rfl
    (by decide) rfl rfl (by decide)).1

/-! Claim C8. -/

/-- Claim C8, counterexample: with parallel docker deployment enabled, a
docker project whose git stage fails is dropped from the results list, so
the run counts zero failures and the process exits 0 although that
project's run ended with terminal status failed. -/
theorem c8_counterexample :
    (gitOnlyResult fleetEnvGitFailed "VCPToolBox").status = UpdateStatus.failed ∧
    updateProjectsParallel fleetEnvGitFailed = [] ∧
    mainExitCodeFleet (updateProjectsParallel fleetEnvGitFailed) = 0 := by
  refine ⟨by decide, by decide, by decide⟩

/-- Claim C8, amended: the exit code is 0 iff no result recorded in the
run's results list has status failed or cancelled (and likewise for the
single-project path); PARTIAL, NO_CHANGES and SKIPPED results alone never
yield a non-zero exit code. -/
theorem c8_exit_code_iff_no_recorded_failure (rs : List UpdateResultM) :
    (mainExitCodeFleet rs = 0 ↔
      ∀ r ∈ rs, r.status ≠ UpdateStatus.failed ∧ r.status ≠ UpdateStatus.cancelled) ∧
    (∀ r : UpdateResultM, mainExitCodeSingle r = 0 ↔
      (r.status ≠ UpdateStatus.failed ∧ r.status ≠ UpdateStatus.cancelled)) := by
  constructor
  · unfold mainExitCodeFleet updateAllProjectsSuccess
    have hf : (rs.countP (fun r => r.status == UpdateStatus.failed) = 0) ↔
        ∀ r ∈ rs, r.status ≠ UpdateStatus.failed := by
      rw [List.countP_eq_zero]
      simp
    have hc : (rs.countP (fun r => r.status == UpdateStatus.cancelled) = 0) ↔
        ∀ r ∈ rs, r.status ≠ UpdateStatus.cancelled := by
      rw [List.countP_eq_zero]
      simp
    split_ifs with h
    · simp only [Bool.and_eq_true, beq_iff_eq] at h
      exact ⟨fun _ r hr => ⟨hf.mp h.1 r hr, hc.mp h.2 r hr⟩, fun _ => rfl⟩
    · constructor
      · intro h10
        exact absurd h10 (by decide)
      · intro hall
        exfalso
        apply h
        simp only [Bool.and_eq_true, beq_iff_eq]
        exact ⟨hf.mpr (fun r hr => (hall r hr).1), hc.mpr (fun r hr => (hall r hr).2)⟩
  · intro r
    unfold mainExitCodeSingle
    split_ifs with h
    · simp only [Bool.or_eq_true, beq_iff_eq] at h
      constructor
      · intro h10
        exact absurd h10 (by decide)
      · intro hni
        rcases h with h | h
        · exact absurd h hni.1
        · exact absurd h hni.2
    · simp only [Bool.or_eq_true, beq_iff_eq] at h
      push_neg at h
      exact ⟨fun _ => h, fun _ => rfl⟩

/-- Claim C8, witness for the amended theorem: a results list with one
PARTIAL entry exits 0; one with a FAILED entry exits non-zero. -/
theorem c8_exit_code_iff_no_recorded_failure_witness :
    mainExitCodeFleet [⟨"VCPChat", UpdateStatus.partialStatus, some UpdateStatus.success,
      some UpdateStatus.failed⟩] = 0 :=
  (c8_exit_code_iff_no_recorded_failure _).1.mpr (by
    intro r hr
    rcases List.mem_singleton.mp hr with h
    rw [h]
    exact ⟨by decide, by decide⟩)

/-! Claim C10. -/

/-- Claim C10: whenever the fingerprint check reports a change it also
overwrites the cached digest with the digest of the current files, and a
second invocation over the same file contents, fed the cache left by the
first, always reports no change. -/
theorem c10_second_run_never_changed (hash : List Nat → Nat) (f : ConfigFiles)
    (c : Option Nat) :
    ((checkDockerConfigChanged hash f c).1 = true →
      (checkDockerConfigChanged hash f c).2 = some (hash (combinedContent f))) ∧
    (checkDockerConfigChanged hash f ((checkDockerConfigChanged hash f c).2)).1 = false := by
  unfold checkDockerConfigChanged
  dsimp only
  rcases c with _ | ch
  · split_ifs <;> simp_all
  · by_cases h1 : f.projectFound <;> by_cases h2 : f.composeExists <;>
      by_cases h3 : combinedContent f = [] <;>
      by_cases h4 : hash (combinedContent f) = ch <;>
      simp_all

/-- Claim C10, witness: after a first run over changed bytes reports a
change, the immediate re-run reports none. -/
theorem c10_second_run_never_changed_witness :
    (checkDockerConfigChanged List.sum ⟨true, true, [1, 3], none, none, none, none⟩
      (checkDockerConfigChanged List.sum ⟨true, true, [1, 3], none, none, none, none⟩
        (some 3)).2).1 = false :=
  (c10_second_run_never_changed List.sum ⟨true, true, [1, 3], none, none, none, none⟩
    (some 3)).2

end VCPUpdate
